import Mathlib

/-!
Shallow embedding of the demographic-classifier core
(src/demographic_classifier.py, src/data_processor.py).

Gender labels are strings, as in the Python source; confidences and
percentage shares are rationals. Python dicts appear as association
lists (insertion order preserved, keys unique in all uses here), with
`dict.get` embedded as a defaulted lookup.
-/

/-- A classifier result `{'gender': ..., 'confidence': ...}` as returned by
`classify_from_image` / `classify_from_bio`. -/
structure GenderResult where
  gender : String
  confidence : ℚ
deriving DecidableEq, Repr

/-- Fusion weight `W_IMG` (src/demographic_classifier.py line 134). -/
def W_IMG : ℚ := 6/10

/-- Fusion weight `W_BIO` (src/demographic_classifier.py line 134). -/
def W_BIO : ℚ := 4/10

/-- Embedding of `ensemble_gender_prediction`
(src/demographic_classifier.py lines 120-148), branch for branch. -/
def ensemble_gender_prediction (image_result bio_result : GenderResult) : String :=
  let img_g := image_result.gender
  let img_c := image_result.confidence
  let bio_g := bio_result.gender
  let bio_c := bio_result.confidence
  -- 1. Direct Agreement/Trivial Cases
  if img_g = bio_g ∧ img_g ≠ "UNKNOWN" then img_g
  else if img_g = "UNKNOWN" ∧ bio_g = "UNKNOWN" then "UNKNOWN"
  -- 2. Weighted Disagreement/Partial Info
  else if img_g ≠ "UNKNOWN" ∧ bio_g ≠ "UNKNOWN" then
    (if img_c * W_IMG > bio_c * W_BIO then img_g else bio_g)
  else if img_g ≠ "UNKNOWN" then
    (if img_c > 7/10 then img_g else "UNKNOWN")
  else if bio_g ≠ "UNKNOWN" then
    (if bio_c > 7/10 then bio_g else "UNKNOWN")
  else "UNKNOWN"

/-- Embedding of the age-group binning block inside `classify_from_image`
(src/demographic_classifier.py lines 49-57). The Python branch structure is
kept: the three named brackets, then `'Other' if age > 0 else 'UNKNOWN'`. -/
def bin_age (age : ℤ) : String :=
  if 18 ≤ age ∧ age ≤ 25 then "18-25"
  else if 26 ≤ age ∧ age ≤ 35 then "26-35"
  else if 36 ≤ age ∧ age ≤ 50 then "36-50"
  else if age > 0 then "Other" else "UNKNOWN"

/-- Python `d.get(k, dflt)` on a percentage mapping. -/
def dict_get (d : List (String × ℚ)) (k : String) (dflt : ℚ) : ℚ :=
  match d.lookup k with
  | some v => v
  | none => dflt

/-- Python `max(regions, key=regions.get, default='N/A')`: the first key
carrying the maximum value, in insertion order; `'N/A'` when empty
(src/data_processor.py line 14). A later key replaces the running maximum
only when its value is strictly greater, as in CPython's `max`. -/
def max_key (regions : List (String × ℚ)) : String :=
  match regions with
  | [] => "N/A"
  | kv0 :: rest =>
      (rest.foldl (fun acc kv => if kv.2 > acc.2 then kv else acc) kv0).1

/-- Rendering of Python `f"{x:.1f}"` for a rational: round to one decimal
place and print with exactly one digit after the point. -/
def format_one_decimal (q : ℚ) : String :=
  let n : ℤ := round (q * 10)
  if n < 0 then
    "-" ++ toString ((-n) / 10) ++ "." ++ toString ((-n) % 10)
  else
    toString (n / 10) ++ "." ++ toString (n % 10)

/-- The `audience_data` record. In the source the three mappings are read
with `audience_data.get(..., {})`; an absent mapping and an empty one are
indistinguishable there, so each field is the (possibly empty) mapping. -/
structure AudienceData where
  follower_regions : List (String × ℚ)
  follower_age_dist : List (String × ℚ)
  follower_gender_dist : List (String × ℚ)
deriving DecidableEq, Repr

/-- Output record of `process_audience_demographics`. -/
structure DemographicsVector where
  audience_top_region : String
  audience_18_35_perc : ℚ
  audience_female_perc : ℚ
  raw_age_dist : List (String × ℚ)
  raw_gender_dist : List (String × ℚ)
deriving DecidableEq, Repr

/-- Embedding of `process_audience_demographics`
(src/data_processor.py lines 3-31). -/
def process_audience_demographics (audience_data : AudienceData) : DemographicsVector :=
  let regions := audience_data.follower_regions
  let age_dist := audience_data.follower_age_dist
  let gender_dist := audience_data.follower_gender_dist
  -- 1. Top Region
  let top_region := max_key regions
  let top_region_perc := dict_get regions top_region 0
  -- 2. Key Audience Age Group Percentage (18-35 segment)
  let age_18_25 := dict_get age_dist "18-25" 0
  let age_26_35 := dict_get age_dist "26-35" 0
  let target_age_perc := age_18_25 + age_26_35
  -- 3. Gender Skew
  let female_perc := dict_get gender_dist "Female" 0
  { audience_top_region := top_region ++ " (" ++ format_one_decimal top_region_perc ++ "%)"
    audience_18_35_perc := target_age_perc
    audience_female_perc := female_perc
    raw_age_dist := age_dist
    raw_gender_dist := gender_dist }

/-- The error raised when a required influencer field is absent
(a required-key lookup failure in the source, named `MissingFieldError`
in the spec). -/
inductive MissingFieldError where
  | missing (field : String)
deriving DecidableEq, Repr

/-- Python `d[k]` on the influencer record: a required-key lookup that
fails when the key is absent. -/
def required_get (d : List (String × String)) (k : String) :
    Except MissingFieldError String :=
  match d.lookup k with
  | some v => Except.ok v
  | none => Except.error (MissingFieldError.missing k)

/-- The terminal `FinalVector` record. -/
structure FinalVector where
  influencer_id : String
  influencer_gender : String
  influencer_age_group : String
  demographics_vector : DemographicsVector
deriving DecidableEq, Repr

/-- Embedding of `create_final_demographic_vector`
(src/data_processor.py lines 33-46): three required-key lookups on the
influencer record, evaluated in source order with the first failure
propagating, then pure composition with the audience aggregation. -/
def create_final_demographic_vector (influencer_data : List (String × String))
    (audience_data : AudienceData) : Except MissingFieldError FinalVector :=
  match required_get influencer_data "influencer_id" with
  | Except.error e => Except.error e
  | Except.ok i =>
    match required_get influencer_data "gender" with
    | Except.error e => Except.error e
    | Except.ok g =>
      match required_get influencer_data "age_group" with
      | Except.error e => Except.error e
      | Except.ok a =>
        Except.ok { influencer_id := i
                    influencer_gender := g
                    influencer_age_group := a
                    demographics_vector := process_audience_demographics audience_data }

/-- Share at a key of a distribution, as the spec words it: the value when
the key is present, 0 when it is missing. -/
def shareAt (d : List (String × ℚ)) (k : String) : ℚ :=
  match d.lookup k with
  | some v => v
  | none => 0

/-- Claim C4: fusing two estimates that agree on a known label in
{MALE, FEMALE} returns that label, whatever the two confidences are. -/
theorem C4_agreement_dominates (g : String) (c cp : ℚ)
    (hg : g = "MALE" ∨ g = "FEMALE") :
    ensemble_gender_prediction ⟨g, c⟩ ⟨g, cp⟩ = g := by
  have hgu : g ≠ "UNKNOWN" := by rcases hg with h | h <;> subst h <;> decide
  simp [ensemble_gender_prediction, hgu]

/-- Witness for C4 at a concrete agreeing pair. -/
theorem C4_witness : ensemble_gender_prediction ⟨"MALE", 0⟩ ⟨"MALE", 1⟩ = "MALE" :=
  C4_agreement_dominates "MALE" 0 1 (Or.inl rfl)

/-- Claim C9: with two known, differing labels the fusion never returns
UNKNOWN, whatever the confidences (even both 0). -/
theorem C9_disagreement_never_unknown (gi gb : String) (ci cb : ℚ)
    (hgi : gi ≠ "UNKNOWN") (hgb : gb ≠ "UNKNOWN") (hne : gi ≠ gb) :
    ensemble_gender_prediction ⟨gi, ci⟩ ⟨gb, cb⟩ ≠ "UNKNOWN" := by
  simp only [ensemble_gender_prediction]
  split_ifs <;> simp_all

/-- Witness for C9 at (MALE, 0) vs (FEMALE, 0). -/
theorem C9_witness :
    ensemble_gender_prediction ⟨"MALE", 0⟩ ⟨"FEMALE", 0⟩ ≠ "UNKNOWN" :=
  C9_disagreement_never_unknown "MALE" "FEMALE" 0 0 (by decide) (by decide) (by decide)

/-- Claim C10: on any pair of inputs the fusion returns (totally, without
raising) one of the image label, the bio label, or UNKNOWN. -/
theorem C10_result_closure (ir br : GenderResult) :
    ensemble_gender_prediction ir br = ir.gender ∨
    ensemble_gender_prediction ir br = br.gender ∨
    ensemble_gender_prediction ir br = "UNKNOWN" := by
  simp only [ensemble_gender_prediction]
  split_ifs <;> simp

/-- Claim C2: with exactly one known label, the fusion returns that label
precisely when its own raw confidence strictly exceeds 7/10, and UNKNOWN
otherwise (so the 0.7 boundary itself yields UNKNOWN), in both argument
orders. -/
theorem C2_single_source_threshold (g : String) (c cu : ℚ) (hg : g ≠ "UNKNOWN") :
    ensemble_gender_prediction ⟨g, c⟩ ⟨"UNKNOWN", cu⟩
        = (if c > 7/10 then g else "UNKNOWN") ∧
    ensemble_gender_prediction ⟨"UNKNOWN", cu⟩ ⟨g, c⟩
        = (if c > 7/10 then g else "UNKNOWN") := by
  constructor <;> simp [ensemble_gender_prediction, hg]

/-- Witness for C2 at the 0.6667 boundary example from the spec. -/
theorem C2_witness :
    ensemble_gender_prediction ⟨"MALE", 6667/10000⟩ ⟨"UNKNOWN", 0⟩ = "UNKNOWN" := by
  have h := (C2_single_source_threshold "MALE" (6667/10000) 0 (by decide)).1
  rw [h]
  norm_num

/-- Claim C5: with two known, differing labels and unequal weighted scores,
the fusion returns the label whose weighted score (image ×0.6, bio ×0.4) is
strictly greater. -/
theorem C5_weighted_disagreement (gi gb : String) (ci cb : ℚ)
    (hgi : gi ≠ "UNKNOWN") (hgb : gb ≠ "UNKNOWN") (hne : gi ≠ gb) :
    (ci * W_IMG > cb * W_BIO →
        ensemble_gender_prediction ⟨gi, ci⟩ ⟨gb, cb⟩ = gi) ∧
    (cb * W_BIO > ci * W_IMG →
        ensemble_gender_prediction ⟨gi, ci⟩ ⟨gb, cb⟩ = gb) := by
  refine ⟨fun h => ?_, fun h => ?_⟩
  · simp [ensemble_gender_prediction, hgi, hgb, hne, h]
  · have h2 : ¬ (ci * W_IMG > cb * W_BIO) := lt_asymm h
    simp [ensemble_gender_prediction, hgi, hgb, hne, h2]

/-- Witness for C5 at the spec example (MALE, 0.5) vs (FEMALE, 0.9). -/
theorem C5_witness :
    ensemble_gender_prediction ⟨"MALE", 1/2⟩ ⟨"FEMALE", 9/10⟩ = "FEMALE" :=
  (C5_weighted_disagreement "MALE" "FEMALE" (1/2) (9/10)
      (by decide) (by decide) (by decide)).2 (by norm_num [W_IMG, W_BIO])

/-- Counterexample to claim C1 as stated: at an exact weighted-score tie
(confidences 0 and 0) between known labels MALE (image) and FEMALE (bio),
the fusion returns the bio label FEMALE, not the image label. -/
theorem C1_counterexample :
    (0 : ℚ) * W_IMG = (0 : ℚ) * W_BIO ∧
    ensemble_gender_prediction ⟨"MALE", 0⟩ ⟨"FEMALE", 0⟩ = "FEMALE" ∧
    ensemble_gender_prediction ⟨"MALE", 0⟩ ⟨"FEMALE", 0⟩ ≠ "MALE" := by
  refine ⟨by norm_num, ?_, ?_⟩ <;> · norm_num [ensemble_gender_prediction, W_IMG, W_BIO]; decide

/-- Claim C1 amended: at an exact weighted-score tie between two known,
differing labels, the fusion returns the bio label (the comparison is
strict, so the tie falls to the else branch). -/
theorem C1_tie_returns_bio_label (gi gb : String) (ci cb : ℚ)
    (hgi : gi ≠ "UNKNOWN") (hgb : gb ≠ "UNKNOWN") (hne : gi ≠ gb)
    (htie : ci * W_IMG = cb * W_BIO) :
    ensemble_gender_prediction ⟨gi, ci⟩ ⟨gb, cb⟩ = gb := by
  have h2 : ¬ (ci * W_IMG > cb * W_BIO) := by rw [htie]; exact lt_irrefl _
  simp [ensemble_gender_prediction, hgi, hgb, hne, h2]

/-- Witness for the amended C1 at the concrete tie (MALE, 0) vs (FEMALE, 0). -/
theorem C1_witness :
    ensemble_gender_prediction ⟨"MALE", 0⟩ ⟨"FEMALE", 0⟩ = "FEMALE" :=
  C1_tie_returns_bio_label "MALE" "FEMALE" 0 0
    (by decide) (by decide) (by decide) (by norm_num [W_IMG, W_BIO])

/-- Claim C6: age binning is total on integers: non-positive ages map to
UNKNOWN, the three named brackets to their labels, and every other
positive age to Other. -/
theorem C6_age_binning_total (age : ℤ) :
    (age ≤ 0 → bin_age age = "UNKNOWN") ∧
    ((18 ≤ age ∧ age ≤ 25) → bin_age age = "18-25") ∧
    ((26 ≤ age ∧ age ≤ 35) → bin_age age = "26-35") ∧
    ((36 ≤ age ∧ age ≤ 50) → bin_age age = "36-50") ∧
    ((0 < age ∧ ¬(18 ≤ age ∧ age ≤ 25) ∧ ¬(26 ≤ age ∧ age ≤ 35) ∧
        ¬(36 ≤ age ∧ age ≤ 50)) → bin_age age = "Other") := by
  unfold bin_age
  refine ⟨?_, ?_, ?_, ?_, ?_⟩ <;> intro h <;> split_ifs <;> first | rfl | omega

/-- Witness for C6 at the spec's sample ages. -/
theorem C6_witness :
    bin_age 0 = "UNKNOWN" ∧ bin_age 18 = "18-25" ∧ bin_age 25 = "18-25" ∧
    bin_age 26 = "26-35" ∧ bin_age 51 = "Other" :=
  ⟨(C6_age_binning_total 0).1 (by norm_num),
   (C6_age_binning_total 18).2.1 (by norm_num),
   (C6_age_binning_total 25).2.1 (by norm_num),
   (C6_age_binning_total 26).2.2.1 (by norm_num),
   (C6_age_binning_total 51).2.2.2.2 (by norm_num)⟩

/-- Claim C7: on an empty region mapping the aggregator does not error: the
top region is the sentinel N/A with share 0, rendered as "N/A (0.0%)". -/
theorem C7_empty_regions (aud : AudienceData) (h : aud.follower_regions = []) :
    max_key aud.follower_regions = "N/A" ∧
    dict_get aud.follower_regions (max_key aud.follower_regions) 0 = 0 ∧
    (process_audience_demographics aud).audience_top_region = "N/A (0.0%)" := by
  rw [h]
  refine ⟨rfl, rfl, ?_⟩
  norm_num [process_audience_demographics, h, max_key, dict_get, format_one_decimal]
  decide

/-- Witness for C7 on a concrete audience record with no region data. -/
theorem C7_witness :
    (process_audience_demographics ⟨[], [("18-25", 20)], []⟩).audience_top_region
      = "N/A (0.0%)" :=
  (C7_empty_regions ⟨[], [("18-25", 20)], []⟩ rfl).2.2

/-- Claim C8: for every age distribution the aggregator's 18-35 share is the
share at "18-25" plus the share at "26-35" (missing keys contributing 0),
and the spec's sample distribution yields 65. -/
theorem C8_target_age_share :
    (∀ aud : AudienceData,
      (process_audience_demographics aud).audience_18_35_perc =
        shareAt aud.follower_age_dist "18-25" + shareAt aud.follower_age_dist "26-35") ∧
    (process_audience_demographics
        ⟨[], [("18-25", 20), ("26-35", 45), ("36-50", 25)], []⟩).audience_18_35_perc
      = 65 := by
  constructor
  · intro aud
    rfl
  · have h1 : (("18-25", (20 : ℚ)) :: ("26-35", 45) :: ("36-50", 25) :: []).lookup "18-25"
        = some 20 := rfl
    have h2 : (("18-25", (20 : ℚ)) :: ("26-35", 45) :: ("36-50", 25) :: []).lookup "26-35"
        = some 45 := rfl
    norm_num [process_audience_demographics, dict_get, h1, h2]

/-- Claim C3: the assembler returns the composed final record when the
influencer record has the id, gender and age-group fields, and fails with a
MissingFieldError exactly when one of them is absent. -/
theorem C3_assembler (inf : List (String × String)) (aud : AudienceData) :
    (∀ i g a, inf.lookup "influencer_id" = some i → inf.lookup "gender" = some g →
        inf.lookup "age_group" = some a →
        create_final_demographic_vector inf aud =
          Except.ok ⟨i, g, a, process_audience_demographics aud⟩) ∧
    ((∃ e, create_final_demographic_vector inf aud = Except.error e) ↔
      (inf.lookup "influencer_id" = none ∨ inf.lookup "gender" = none ∨
       inf.lookup "age_group" = none)) := by
  constructor
  · intro i g a hi hg ha
    simp [create_final_demographic_vector, required_get, hi, hg, ha]
  · cases hi : inf.lookup "influencer_id" with
    | none => simp [create_final_demographic_vector, required_get, hi]
    | some i =>
      cases hg : inf.lookup "gender" with
      | none => simp [create_final_demographic_vector, required_get, hi, hg]
      | some g =>
        cases ha : inf.lookup "age_group" with
        | none => simp [create_final_demographic_vector, required_get, hi, hg, ha]
        | some a => simp [create_final_demographic_vector, required_get, hi, hg, ha]

/-- Witness for C3: a complete influencer record assembles to the composed
final record. -/
theorem C3_witness :
    create_final_demographic_vector
        [("influencer_id", "A456"), ("gender", "MALE"), ("age_group", "26-35")]
        ⟨[], [], []⟩
      = Except.ok ⟨"A456", "MALE", "26-35", process_audience_demographics ⟨[], [], []⟩⟩ :=
  (C3_assembler _ _).1 "A456" "MALE" "26-35" rfl rfl rfl
